import Mathlib

/-!
Verification of the ainneve typeclass layer
(`src/typeclasses/characters.py`, `src/typeclasses/objects.py`).

The Python classes store every stat in a persistent attribute store
(`self.db.<field>`) and read it back through property accessors of the
shape `self.db.<field> or default`.  With integer-valued fields, Python's
`or` returns the default exactly when the stored value is `0` (the only
falsy integer).  We embed the character state as a record of the stored
integer fields and model each accessor as an explicit coalescing read.
-/

namespace Ainneve

/-- Python `stored or default` on an integer-valued attribute: the default
is returned exactly when the stored value is `0`. -/
def orDefault (v d : Int) : Int := if v = 0 then d else v

/-- Stored (`self.db.*`) fields of a `BaseCharacter` / `Character`,
as initialised by `at_object_creation`. -/
structure CharState where
  hp : Int
  hp_max : Int
  mana : Int
  mana_max : Int
  stamina : Int
  stamina_max : Int
  strength : Int
  will : Int
  coins : Int
deriving DecidableEq, Repr

/-- Accessor `BaseCharacter.hp`: `self.db.hp or 1`. -/
def hpVal (s : CharState) : Int := orDefault s.hp 1

/-- Accessor `BaseCharacter.hp_max`: `self.db.hp_max or 1`. -/
def hpMaxVal (s : CharState) : Int := orDefault s.hp_max 1

/-- Accessor `BaseCharacter.mana`: `self.db.mana or 1`. -/
def manaVal (s : CharState) : Int := orDefault s.mana 1

/-- Accessor `BaseCharacter.mana_max`: `self.db.mana_max or 1`. -/
def manaMaxVal (s : CharState) : Int := orDefault s.mana_max 1

/-- Accessor `BaseCharacter.stamina`: `self.db.stamina or 1`. -/
def staminaVal (s : CharState) : Int := orDefault s.stamina 1

/-- Accessor `BaseCharacter.stamina_max`: `self.db.stamina_max or 1`. -/
def staminaMaxVal (s : CharState) : Int := orDefault s.stamina_max 1

/-- Accessor `BaseCharacter.strength`: `self.db.strength or 1`. -/
def strengthVal (s : CharState) : Int := orDefault s.strength 1

/-- Accessor `BaseCharacter.will`: `self.db.will or 1`. -/
def willVal (s : CharState) : Int := orDefault s.will 1

/-- Accessor `Character.coins`: `self.db.coins or 0`. -/
def coinsVal (s : CharState) : Int := orDefault s.coins 0

/-- `BaseCharacter.at_damage(damage)`:
`self.hp -= damage; if self.hp <= 0: self.at_defeat()`.
Both reads go through the coalescing `hp` accessor; the write stores the
raw difference.  `BaseCharacter.at_defeat` (defeat-means-death) does not
modify any stored stat, so we return the state together with a flag
recording whether `at_defeat` was invoked. -/
def at_damage (s : CharState) (damage : Int) : CharState × Bool :=
  let s1 := { s with hp := hpVal s - damage }
  (s1, decide (hpVal s1 ≤ 0))

/-- `BaseCharacter.heal(hp)`:
`damage = self.hp_max - self.hp; healed = min(damage, hp);
self.hp += healed`.  Returns the new state and the `healed` amount that
is reported in the message. -/
def heal (s : CharState) (amount : Int) : CharState × Int :=
  let damage := hpMaxVal s - hpVal s
  let healed := min damage amount
  ({ s with hp := hpVal s + healed }, healed)

/-- First block of `BaseCharacter.at_recovery()`:
`self.stamina += self.strength;
if self.stamina > self.stamina_max: self.stamina = self.stamina_max`. -/
def recoverStamina (s : CharState) : CharState :=
  let s1 := { s with stamina := staminaVal s + strengthVal s }
  if staminaVal s1 > staminaMaxVal s1
  then { s1 with stamina := staminaMaxVal s1 } else s1

/-- Second block of `BaseCharacter.at_recovery()`:
`self.mana += self.will;
if self.mana > self.mana_max: self.mana = self.mana_max`. -/
def recoverMana (s : CharState) : CharState :=
  let s1 := { s with mana := manaVal s + willVal s }
  if manaVal s1 > manaMaxVal s1
  then { s1 with mana := manaMaxVal s1 } else s1

/-- `BaseCharacter.at_recovery()`: the stamina block, then the mana block. -/
def at_recovery (s : CharState) : CharState :=
  recoverMana (recoverStamina s)

/-- `Character.at_defeat()` (the player-character override):
if the location allows death, `rules.dice.roll_death(self)` is invoked
(an external collaborator; we count its invocations and leave the state
to it); otherwise a yield narration is broadcast and
`self.hp = self.hp_max`. -/
def at_defeat_pc (s : CharState) (allow_death : Bool) : CharState × Nat :=
  if allow_death then (s, 1)
  else ({ s with hp := hpMaxVal s }, 0)

/-- `BaseCharacter.at_pay(amount)`:
`amount = min(amount, self.coins); self.coins -= amount; return amount`. -/
def at_pay (s : CharState) (amount : Int) : CharState × Int :=
  let amt := min amount (coinsVal s)
  ({ s with coins := coinsVal s - amt }, amt)

/-- `BaseCharacter.at_looted(looter)` with the external
`rules.dice.roll("1d10")` outcome passed in as `roll`:
`stolen = self.at_pay(roll); looter.coins += stolen`.
Returns (victim after, looter after, stolen). -/
def at_looted (victim looter : CharState) (roll : Int) :
    CharState × CharState × Int :=
  let (victim1, stolen) := at_pay victim roll
  let looter1 := { looter with coins := coinsVal looter + stolen }
  (victim1, looter1, stolen)

/-- `Character.at_looted(looter)` (the player-character override): `pass`.
No stored field of either entity is touched. -/
def at_looted_pc (victim looter : CharState) : CharState × CharState :=
  (victim, looter)

/-- The clamp in `BaseCharacter.hurt_level`:
`percent = max(0, min(100, 100 * (self.hp / self.hp_max)))`,
as a function of the ratio `self.hp / self.hp_max`. -/
def clampPercent (r : ℚ) : ℚ := max 0 (min 100 (100 * r))

/-- The band dispatch of `BaseCharacter.hurt_level`: the chained
`if 95 < percent <= 100: ... elif percent == 0: ...` ladder.  A Python
function falling off the end returns `None`, hence the `Option`. -/
def hurtBand (percent : ℚ) : Option String :=
  if 95 < percent ∧ percent ≤ 100 then some "|gPerfect|n"
  else if 80 < percent ∧ percent ≤ 95 then some "|gScraped|n"
  else if 60 < percent ∧ percent ≤ 80 then some "|GBruised|n"
  else if 45 < percent ∧ percent ≤ 60 then some "|yHurt|n"
  else if 30 < percent ∧ percent ≤ 45 then some "|yWounded|n"
  else if 15 < percent ∧ percent ≤ 30 then some "|rBadly wounded|n"
  else if 1 < percent ∧ percent ≤ 15 then some "|rBarely hanging on|n"
  else if percent = 0 then some "|RCollapsed!|n"
  else none

/-- `BaseCharacter.hurt_level`, reading through the coalescing accessors. -/
def hurt_level (s : CharState) : Option String :=
  hurtBand (clampPercent ((hpVal s : ℚ) / (hpMaxVal s : ℚ)))

/-- One call in a damage/heal/recovery sequence (claim C1's alphabet;
`spend_stamina`/`spend_mana` are excluded by the claim). -/
inductive PoolOp where
  | damage (amount : Int)
  | healBy (amount : Int)
  | recovery
deriving DecidableEq, Repr

/-- Apply one pool operation to the state (discarding the defeat flag /
healed report, which do not feed back into the stored stats for a
`BaseCharacter`). -/
def applyPoolOp (s : CharState) : PoolOp → CharState
  | .damage a => (at_damage s a).1
  | .healBy a => (heal s a).1
  | .recovery => at_recovery s

/-- Apply a whole sequence of pool operations, left to right. -/
def applyPoolOps (s : CharState) : List PoolOp → CharState
  | [] => s
  | o :: rest => applyPoolOps (applyPoolOp s o) rest

/-- Non-negative damage/heal amounts (recovery takes no amount). -/
def poolOpNonneg : PoolOp → Bool
  | .damage a => decide (0 ≤ a)
  | .healBy a => decide (0 ≤ a)
  | .recovery => true

/-- Run a list of `at_damage` calls, counting how many of them invoked
`at_defeat`. -/
def runDamages (s : CharState) : List Int → CharState × Nat
  | [] => (s, 0)
  | d :: rest =>
      let r1 := at_damage s d
      let r2 := runDamages r1.1 rest
      (r2.1, (if r1.2 then 1 else 0) + r2.2)

/-- Stored field of a `ConsumableObject`: `self.db.uses`, read through
the accessor `self.db.uses or 1`. -/
def usesVal (uses : Int) : Int := orDefault uses 1

/-- `ConsumableObject.at_post_use(user)`:
`self.uses -= 1; if self.uses <= 0: ... self.delete()`.
Returns the new stored `uses` and whether the item was deleted. -/
def at_post_use (uses : Int) : Int × Bool :=
  let u1 := usesVal uses - 1
  (u1, decide (usesVal u1 ≤ 0))

/-- `Runestone.at_post_use(user)`: `self.uses -= 1` and nothing else —
the rune stone is never deleted on use. -/
def runestone_at_post_use (uses : Int) : Int × Bool :=
  (usesVal uses - 1, false)

end Ainneve

namespace Ainneve

/-! ### Generic facts about the coalescing accessors -/

lemma orDefault_one_le_zero_iff (x : Int) : orDefault x 1 ≤ 0 ↔ x < 0 := by
  unfold orDefault; split_ifs with h <;> omega

lemma orDefault_one_ne_zero (x : Int) : orDefault x 1 ≠ 0 := by
  unfold orDefault; split_ifs with h <;> omega

/-! ### The pool invariant that survives on the code (claim C1) -/

/-- The part of the spec's resource invariant that the code actually
maintains under damage/heal/recovery: both bounds for stamina and mana,
the upper bound (only) for HP, `maximum ≥ 1` for all three pools, and
non-negative stored strength/will (which drive regeneration). -/
abbrev PoolInv (s : CharState) : Prop :=
  s.hp ≤ s.hp_max ∧ 1 ≤ s.hp_max ∧
  0 ≤ s.stamina ∧ s.stamina ≤ s.stamina_max ∧ 1 ≤ s.stamina_max ∧
  0 ≤ s.mana ∧ s.mana ≤ s.mana_max ∧ 1 ≤ s.mana_max ∧
  0 ≤ s.strength ∧ 0 ≤ s.will

lemma poolInv_damage (s : CharState) (a : Int) (h : PoolInv s) (ha : 0 ≤ a) :
    PoolInv (at_damage s a).1 := by
  obtain ⟨h1, h2, h3, h4, h5, h6, h7, h8, h9, h10⟩ := h
  dsimp only [at_damage, hpVal, orDefault, PoolInv]
  split_ifs <;> omega

lemma poolInv_heal (s : CharState) (a : Int) (h : PoolInv s) :
    PoolInv (heal s a).1 := by
  obtain ⟨h1, h2, h3, h4, h5, h6, h7, h8, h9, h10⟩ := h
  dsimp only [heal, hpVal, hpMaxVal, orDefault, PoolInv]
  simp only [min_def]
  split_ifs <;> omega

lemma poolInv_recoverStamina (s : CharState) (h : PoolInv s) :
    PoolInv (recoverStamina s) := by
  obtain ⟨h1, h2, h3, h4, h5, h6, h7, h8, h9, h10⟩ := h
  dsimp only [recoverStamina, staminaVal, staminaMaxVal, strengthVal, orDefault, PoolInv]
  split_ifs <;> (try dsimp only) <;> omega

lemma poolInv_recoverMana (s : CharState) (h : PoolInv s) :
    PoolInv (recoverMana s) := by
  obtain ⟨h1, h2, h3, h4, h5, h6, h7, h8, h9, h10⟩ := h
  dsimp only [recoverMana, manaVal, manaMaxVal, willVal, orDefault, PoolInv]
  split_ifs <;> (try dsimp only) <;> omega

lemma poolInv_recovery (s : CharState) (h : PoolInv s) :
    PoolInv (at_recovery s) :=
  poolInv_recoverMana _ (poolInv_recoverStamina s h)

lemma poolInv_applyPoolOps (ops : List PoolOp) (s : CharState)
    (h : PoolInv s) (hops : ops.all poolOpNonneg = true) :
    PoolInv (applyPoolOps s ops) := by
  induction ops generalizing s with
  | nil => exact h
  | cons o rest ih =>
      simp only [List.all_cons, Bool.and_eq_true] at hops
      cases o with
      | damage a =>
          exact ih _ (poolInv_damage s a h (of_decide_eq_true hops.1)) hops.2
      | healBy a =>
          exact ih _ (poolInv_heal s a h) hops.2
      | recovery =>
          exact ih _ (poolInv_recovery s h) hops.2

/-- C1 (amended): starting from a state where both pools' bounds hold for
stamina and mana, HP is at most its maximum, all three maxima are at
least 1, and the stored strength and will are non-negative, every finite
sequence of `at_damage`, `heal` and `at_recovery` calls with non-negative
amounts preserves `0 ≤ current ≤ maximum` for stamina and mana and
`current ≤ maximum` for HP — but not `0 ≤ hp`, which a single overkill
`at_damage` violates (see the counterexample). -/
theorem C1_pool_invariant (s : CharState) (ops : List PoolOp)
    (hInv : PoolInv s) (hops : ops.all poolOpNonneg = true) :
    PoolInv (applyPoolOps s ops) :=
  poolInv_applyPoolOps ops s hInv hops

/-- C1 witness: the amended invariant theorem applied to a concrete
character and a concrete damage/heal/recovery sequence. -/
theorem C1_pool_invariant_witness :
    PoolInv ⟨1, 1, 1, 1, 1, 1, 1, 1, 0⟩ ∧
    PoolInv (applyPoolOps ⟨1, 1, 1, 1, 1, 1, 1, 1, 0⟩
      [PoolOp.damage 1, PoolOp.healBy 5, PoolOp.recovery]) :=
  ⟨by decide,
   C1_pool_invariant ⟨1, 1, 1, 1, 1, 1, 1, 1, 0⟩
     [PoolOp.damage 1, PoolOp.healBy 5, PoolOp.recovery] (by decide) (by decide)⟩

/-- C1 counterexample: from the fully-healthy 1/1 character (which
satisfies `0 ≤ current ≤ maximum`, `maximum ≥ 1` for all three pools), a
single `at_damage 2` drives the HP accessor value to `-1 < 0`: the code
never clamps HP at 0, so the claimed invariant is false. -/
theorem C1_counterexample :
    hpVal (applyPoolOps ⟨1, 1, 1, 1, 1, 1, 1, 1, 0⟩ [PoolOp.damage 2]) = -1 ∧
    ¬ (0 ≤ hpVal (applyPoolOps ⟨1, 1, 1, 1, 1, 1, 1, 1, 0⟩ [PoolOp.damage 2])) := by
  decide

end Ainneve

namespace Ainneve

/-! ### Damage and defeat (claims C2, C3) -/

lemma hpVal_update (s : CharState) (x : Int) (hx : x ≠ 0) :
    hpVal { s with hp := x } = x := by
  dsimp only [hpVal, orDefault]
  rw [if_neg hx]

/-- C2 (amended): `at_damage` stores the accessor-read old HP minus the
damage with no lower clamp (so HP can go negative), and signals defeat
(`at_defeat`) exactly when the new stored HP is strictly negative — in
particular, damage landing exactly on stored HP 0 signals no defeat,
because the coalescing accessor reads the stored 0 back as 1. -/
theorem C2_at_damage (s : CharState) (d : Int) :
    (at_damage s d).1.hp = hpVal s - d ∧
    ((at_damage s d).2 = true ↔ (at_damage s d).1.hp < 0) := by
  constructor
  · rfl
  · dsimp only [at_damage, hpVal]
    rw [decide_eq_true_iff]
    exact orDefault_one_le_zero_iff _

/-- C2 counterexample: at HP 1/1 a hit for 2 leaves stored HP `-1`, not
the claimed clamped value `max (1 - 2) 0 = 0`; and at HP 2/2 a hit for 2
makes the unclamped result 0 yet the defeat signal does NOT fire. -/
theorem C2_counterexample :
    ((at_damage ⟨1, 1, 1, 1, 1, 1, 1, 1, 0⟩ 2).1.hp = -1 ∧
     (at_damage ⟨1, 1, 1, 1, 1, 1, 1, 1, 0⟩ 2).1.hp ≠
       max (hpVal ⟨1, 1, 1, 1, 1, 1, 1, 1, 0⟩ - 2) 0) ∧
    ((at_damage ⟨2, 2, 1, 1, 1, 1, 1, 1, 0⟩ 2).2 = false ∧
     hpVal ⟨2, 2, 1, 1, 1, 1, 1, 1, 0⟩ - 2 ≤ 0) := by
  decide

/-- C3 (amended): there is no once-only defeat latch in `at_damage`.
A character whose stored HP is already negative (already defeated)
triggers `at_defeat` again on every further non-negative-damage call,
and a call that drives stored HP to exactly 0 triggers no defeat at all. -/
theorem C3_defeat_not_latched (s : CharState) (d : Int) :
    (s.hp < 0 → 0 ≤ d → (at_damage s d).2 = true) ∧
    (hpVal s - d = 0 → (at_damage s d).2 = false) := by
  constructor
  · intro hneg hd
    dsimp only [at_damage, hpVal]
    rw [decide_eq_true_iff, orDefault_one_le_zero_iff]
    dsimp only [orDefault]
    split_ifs <;> omega
  · intro h
    dsimp only [at_damage]
    rw [decide_eq_false_iff_not, h]
    simp [hpVal, orDefault]

/-- C3 witness: the no-latch theorem applied to a character at stored HP
`-2` hit again for 1 (defeat fires again), and to a character at HP 2/2
hit for exactly 2 (stored HP 0, defeat does not fire). -/
theorem C3_defeat_not_latched_witness :
    ((⟨-2, 1, 1, 1, 1, 1, 1, 1, 0⟩ : CharState).hp < 0 ∧ (0 : Int) ≤ 1 ∧
     (at_damage ⟨-2, 1, 1, 1, 1, 1, 1, 1, 0⟩ 1).2 = true) ∧
    (hpVal ⟨2, 2, 1, 1, 1, 1, 1, 1, 0⟩ - 2 = 0 ∧
     (at_damage ⟨2, 2, 1, 1, 1, 1, 1, 1, 0⟩ 2).2 = false) :=
  ⟨⟨by decide, by decide,
    (C3_defeat_not_latched ⟨-2, 1, 1, 1, 1, 1, 1, 1, 0⟩ 1).1 (by decide) (by decide)⟩,
   ⟨by decide,
    (C3_defeat_not_latched ⟨2, 2, 1, 1, 1, 1, 1, 1, 0⟩ 2).2 (by decide)⟩⟩

/-- C3 counterexample: from HP 1/1 the damage sequence `[3, 1]` invokes
`at_defeat` twice, not once; and from HP 2/2 the single hit for 2 drives
stored HP to exactly 0 with zero `at_defeat` invocations. -/
theorem C3_counterexample :
    (runDamages ⟨1, 1, 1, 1, 0, 1, 1, 1, 0⟩ [3, 1]).2 = 2 ∧
    (runDamages ⟨2, 2, 1, 1, 1, 1, 1, 1, 0⟩ [2]).1.hp = 0 ∧
    (runDamages ⟨2, 2, 1, 1, 1, 1, 1, 1, 0⟩ [2]).2 = 0 := by
  decide

end Ainneve

namespace Ainneve

/-! ### Status bands (claim C4) -/

lemma hurtBand_isSome (p : ℚ) (h : p = 0 ∨ (1 < p ∧ p ≤ 100)) :
    (hurtBand p).isSome = true := by
  rcases h with h | ⟨h1, h2⟩
  · subst h; norm_num [hurtBand]
  · unfold hurtBand
    by_cases c1 : 95 < p ∧ p ≤ 100
    · rw [if_pos c1]; rfl
    rw [if_neg c1]
    by_cases c2 : 80 < p ∧ p ≤ 95
    · rw [if_pos c2]; rfl
    rw [if_neg c2]
    by_cases c3 : 60 < p ∧ p ≤ 80
    · rw [if_pos c3]; rfl
    rw [if_neg c3]
    by_cases c4 : 45 < p ∧ p ≤ 60
    · rw [if_pos c4]; rfl
    rw [if_neg c4]
    by_cases c5 : 30 < p ∧ p ≤ 45
    · rw [if_pos c5]; rfl
    rw [if_neg c5]
    by_cases c6 : 15 < p ∧ p ≤ 30
    · rw [if_pos c6]; rfl
    rw [if_neg c6]
    by_cases c7 : 1 < p ∧ p ≤ 15
    · rw [if_pos c7]; rfl
    exfalso
    have h15 : 15 < p := (lt_or_le 15 p).resolve_right fun hc => c7 ⟨h1, hc⟩
    have h30 : 30 < p := (lt_or_le 30 p).resolve_right fun hc => c6 ⟨h15, hc⟩
    have h45 : 45 < p := (lt_or_le 45 p).resolve_right fun hc => c5 ⟨h30, hc⟩
    have h60 : 60 < p := (lt_or_le 60 p).resolve_right fun hc => c4 ⟨h45, hc⟩
    have h80 : 80 < p := (lt_or_le 80 p).resolve_right fun hc => c3 ⟨h60, hc⟩
    have h95 : 95 < p := (lt_or_le 95 p).resolve_right fun hc => c2 ⟨h80, hc⟩
    exact c1 ⟨h95, h2⟩

/-- C4 (amended): on the domain the code can actually produce a label
for, `hurt_level` is total and the bands behave as claimed: every ratio
`r ∈ [0,1]` with `r = 0` or `100 r > 1` gets exactly one of the 8 band
labels; boundary values belong to the upper band (`0.80 ↦ Bruised`),
ratio 0 gives the unique zero band and ratio 1 the unique perfect band.
But ratios in `(0, 1/100]` fall through every branch (the lowest band is
`1 < percent ≤ 15`, not `0 < percent`), so the function is not total on
`[0,1]` — see the counterexample. -/
theorem C4_hurt_bands (r : ℚ) (h0 : 0 ≤ r) (h1 : r ≤ 1)
    (h : r = 0 ∨ 1 < 100 * r) :
    (hurtBand (clampPercent r)).isSome = true ∧
    hurtBand (clampPercent (4/5)) = some "|GBruised|n" ∧
    hurtBand (clampPercent 0) = some "|RCollapsed!|n" ∧
    hurtBand (clampPercent 1) = some "|gPerfect|n" := by
  have hcl : clampPercent r = 100 * r := by
    unfold clampPercent
    rw [min_eq_right (by linarith), max_eq_right (by linarith)]
  refine ⟨?_, by norm_num [hurtBand, clampPercent],
          by norm_num [hurtBand, clampPercent],
          by norm_num [hurtBand, clampPercent]⟩
  rw [hcl]
  apply hurtBand_isSome
  rcases h with h | h
  · left; rw [h]; ring
  · exact Or.inr ⟨h, by linarith⟩

/-- C4 witness: the band theorem applied at the concrete ratio `1/2`. -/
theorem C4_hurt_bands_witness :
    (0 : ℚ) ≤ 1/2 ∧ (1 : ℚ)/2 ≤ 1 ∧
    ((1 : ℚ)/2 = 0 ∨ 1 < 100 * ((1 : ℚ)/2)) ∧
    ((hurtBand (clampPercent (1/2))).isSome = true ∧
     hurtBand (clampPercent (4/5)) = some "|GBruised|n" ∧
     hurtBand (clampPercent 0) = some "|RCollapsed!|n" ∧
     hurtBand (clampPercent 1) = some "|gPerfect|n") :=
  ⟨by norm_num, by norm_num, Or.inr (by norm_num),
   C4_hurt_bands (1/2) (by norm_num) (by norm_num) (Or.inr (by norm_num))⟩

/-- C4 counterexample: the ratio `1/200 ∈ [0,1]` (HP 1 of 200, half a
percent) matches no band — the band ladder starts at `1 < percent`, so
`hurt_level` falls off the end and returns no label, refuting totality
on `[0,1]`. -/
theorem C4_counterexample :
    (0 : ℚ) ≤ 1/200 ∧ (1 : ℚ)/200 ≤ 1 ∧
    hurtBand (clampPercent (1/200)) = none := by
  norm_num [hurtBand, clampPercent]

/-! ### Healing (claim C5) -/

/-- C5 (amended): for a character whose accessor-visible HP is positive
and at most the maximum, and a non-negative requested amount, `heal`
computes `healed = min(hp_max - hp_before, amount)`, raises the
accessor-visible HP by exactly `healed`, and reports `healed` (the
reported value is the returned one, not the request).  The positivity
hypothesis is forced: from a negative stored HP, a heal landing exactly
on stored HP 0 is read back as 1 — see the counterexample. -/
theorem C5_heal (s : CharState) (amount : Int)
    (hpos : 0 < hpVal s) (hle : hpVal s ≤ hpMaxVal s) (ha : 0 ≤ amount) :
    (heal s amount).2 = min (hpMaxVal s - hpVal s) amount ∧
    hpVal (heal s amount).1 = hpVal s + (heal s amount).2 := by
  refine ⟨rfl, ?_⟩
  have hmin : 0 ≤ min (hpMaxVal s - hpVal s) amount := le_min (by omega) ha
  dsimp only [heal]
  rw [hpVal_update s _ (by omega)]

/-- C5 witness: the heal theorem applied to the spec's own example, a
character at HP 7/10 healed for 50: `healed = 3` and HP ends at 10. -/
theorem C5_heal_witness :
    0 < hpVal ⟨7, 10, 1, 1, 1, 1, 1, 1, 0⟩ ∧
    hpVal ⟨7, 10, 1, 1, 1, 1, 1, 1, 0⟩ ≤ hpMaxVal ⟨7, 10, 1, 1, 1, 1, 1, 1, 0⟩ ∧
    (0 : Int) ≤ 50 ∧
    (heal ⟨7, 10, 1, 1, 1, 1, 1, 1, 0⟩ 50).2 = 3 ∧
    (heal ⟨7, 10, 1, 1, 1, 1, 1, 1, 0⟩ 50).1.hp = 10 ∧
    ((heal ⟨7, 10, 1, 1, 1, 1, 1, 1, 0⟩ 50).2 =
       min (hpMaxVal ⟨7, 10, 1, 1, 1, 1, 1, 1, 0⟩ - hpVal ⟨7, 10, 1, 1, 1, 1, 1, 1, 0⟩) 50 ∧
     hpVal (heal ⟨7, 10, 1, 1, 1, 1, 1, 1, 0⟩ 50).1 =
       hpVal ⟨7, 10, 1, 1, 1, 1, 1, 1, 0⟩ + (heal ⟨7, 10, 1, 1, 1, 1, 1, 1, 0⟩ 50).2) :=
  ⟨by decide, by decide, by decide, by decide, by decide,
   C5_heal ⟨7, 10, 1, 1, 1, 1, 1, 1, 0⟩ 50 (by decide) (by decide) (by decide)⟩

/-- C5 counterexample: a character at stored HP `-3` of 10 (reachable by
overkill damage, and satisfying the claim's `current ≤ maximum`)
healed for 3 reports `healed = 3`, but the stored HP lands exactly on 0
and the accessor reads it back as 1: current HP rises by 4, not by the
reported 3. -/
theorem C5_counterexample :
    hpVal ⟨-3, 10, 1, 1, 1, 1, 1, 1, 0⟩ ≤ hpMaxVal ⟨-3, 10, 1, 1, 1, 1, 1, 1, 0⟩ ∧
    (heal ⟨-3, 10, 1, 1, 1, 1, 1, 1, 0⟩ 3).2 = 3 ∧
    hpVal (heal ⟨-3, 10, 1, 1, 1, 1, 1, 1, 0⟩ 3).1 = 1 ∧
    hpVal (heal ⟨-3, 10, 1, 1, 1, 1, 1, 1, 0⟩ 3).1 ≠
      hpVal ⟨-3, 10, 1, 1, 1, 1, 1, 1, 0⟩ + (heal ⟨-3, 10, 1, 1, 1, 1, 1, 1, 0⟩ 3).2 := by
  decide

end Ainneve

namespace Ainneve

/-! ### Player-character defeat, looting, consumables, accessors
(claims C6, C7, C8, C9, C10) -/

/-- C6 (confirmed): `Character.at_defeat` in a location that forbids
death restores stored and accessor-visible HP to the maximum and never
invokes the death roll; in a location that allows death it invokes the
external death-roll collaborator exactly once and leaves the whole state
(HP included) untouched. -/
theorem C6_pc_defeat (s : CharState) :
    (at_defeat_pc s false).1.hp = hpMaxVal s ∧
    hpVal (at_defeat_pc s false).1 = hpMaxVal s ∧
    (at_defeat_pc s false).2 = 0 ∧
    (at_defeat_pc s true).1 = s ∧
    (at_defeat_pc s true).2 = 1 := by
  refine ⟨rfl, ?_, rfl, rfl, rfl⟩
  exact hpVal_update s _ (orDefault_one_ne_zero s.hp_max)

lemma coinsVal_eq (s : CharState) : coinsVal s = s.coins := by
  unfold coinsVal orDefault
  split_ifs with h <;> omega

/-- C7 (confirmed): for non-negative coin balances, `at_looted` steals
`min(roll, victim.coins)`, lowers the victim's coins by exactly that
amount (and never below 0), raises the looter's coins by exactly that
amount, and preserves the combined total. -/
theorem C7_loot_transfer (victim looter : CharState) (roll : Int)
    (hv : 0 ≤ victim.coins) (hl : 0 ≤ looter.coins) :
    (at_looted victim looter roll).2.2 = min roll victim.coins ∧
    (at_looted victim looter roll).1.coins
      = victim.coins - (at_looted victim looter roll).2.2 ∧
    0 ≤ (at_looted victim looter roll).1.coins ∧
    (at_looted victim looter roll).2.1.coins
      = looter.coins + (at_looted victim looter roll).2.2 ∧
    (at_looted victim looter roll).1.coins + (at_looted victim looter roll).2.1.coins
      = victim.coins + looter.coins := by
  dsimp only [at_looted, at_pay]
  rw [coinsVal_eq, coinsVal_eq]
  refine ⟨rfl, rfl, ?_, rfl, ?_⟩ <;>
    rcases le_total roll victim.coins with h | h <;>
    simp only [min_def] <;> split_ifs <;> omega

/-- C7 witness: the loot theorem applied to the spec's example — a
victim with 3 coins, a looter with 5, and a dice roll of 10: stolen is
3, the victim ends at 0 and the looter at 8. -/
theorem C7_loot_transfer_witness :
    0 ≤ (⟨1, 1, 1, 1, 1, 1, 1, 1, 3⟩ : CharState).coins ∧
    0 ≤ (⟨1, 1, 1, 1, 1, 1, 1, 1, 5⟩ : CharState).coins ∧
    (at_looted ⟨1, 1, 1, 1, 1, 1, 1, 1, 3⟩ ⟨1, 1, 1, 1, 1, 1, 1, 1, 5⟩ 10).2.2 = 3 ∧
    (at_looted ⟨1, 1, 1, 1, 1, 1, 1, 1, 3⟩ ⟨1, 1, 1, 1, 1, 1, 1, 1, 5⟩ 10).1.coins = 0 ∧
    (at_looted ⟨1, 1, 1, 1, 1, 1, 1, 1, 3⟩ ⟨1, 1, 1, 1, 1, 1, 1, 1, 5⟩ 10).2.1.coins = 8 ∧
    ((at_looted ⟨1, 1, 1, 1, 1, 1, 1, 1, 3⟩ ⟨1, 1, 1, 1, 1, 1, 1, 1, 5⟩ 10).2.2 =
       min 10 (⟨1, 1, 1, 1, 1, 1, 1, 1, 3⟩ : CharState).coins ∧
     (at_looted ⟨1, 1, 1, 1, 1, 1, 1, 1, 3⟩ ⟨1, 1, 1, 1, 1, 1, 1, 1, 5⟩ 10).1.coins
       = (⟨1, 1, 1, 1, 1, 1, 1, 1, 3⟩ : CharState).coins -
         (at_looted ⟨1, 1, 1, 1, 1, 1, 1, 1, 3⟩ ⟨1, 1, 1, 1, 1, 1, 1, 1, 5⟩ 10).2.2 ∧
     0 ≤ (at_looted ⟨1, 1, 1, 1, 1, 1, 1, 1, 3⟩ ⟨1, 1, 1, 1, 1, 1, 1, 1, 5⟩ 10).1.coins ∧
     (at_looted ⟨1, 1, 1, 1, 1, 1, 1, 1, 3⟩ ⟨1, 1, 1, 1, 1, 1, 1, 1, 5⟩ 10).2.1.coins
       = (⟨1, 1, 1, 1, 1, 1, 1, 1, 5⟩ : CharState).coins +
         (at_looted ⟨1, 1, 1, 1, 1, 1, 1, 1, 3⟩ ⟨1, 1, 1, 1, 1, 1, 1, 1, 5⟩ 10).2.2 ∧
     (at_looted ⟨1, 1, 1, 1, 1, 1, 1, 1, 3⟩ ⟨1, 1, 1, 1, 1, 1, 1, 1, 5⟩ 10).1.coins +
       (at_looted ⟨1, 1, 1, 1, 1, 1, 1, 1, 3⟩ ⟨1, 1, 1, 1, 1, 1, 1, 1, 5⟩ 10).2.1.coins
       = (⟨1, 1, 1, 1, 1, 1, 1, 1, 3⟩ : CharState).coins +
         (⟨1, 1, 1, 1, 1, 1, 1, 1, 5⟩ : CharState).coins) :=
  ⟨by decide, by decide, by decide, by decide, by decide,
   C7_loot_transfer ⟨1, 1, 1, 1, 1, 1, 1, 1, 3⟩ ⟨1, 1, 1, 1, 1, 1, 1, 1, 5⟩ 10
     (by decide) (by decide)⟩

/-- C8 (code bug): a fresh consumable is created with stored `uses = 1`;
using it once stores `uses = 0` — but the deletion check re-reads `uses`
through the `self.db.uses or 1` accessor, which turns the stored 0 back
into 1, so `delete()` is NOT called; and every further use keeps the
stored counter at 0, so the item is never removed, contradicting both
the claim and the code's own docstring. -/
theorem C8_consumable_delete_bug :
    at_post_use 1 = (0, false) ∧
    usesVal 0 = 1 ∧
    at_post_use 0 = (0, false) := by
  decide

/-- C9 (confirmed): the `hp` property coalesces a stored 0 to the
default 1, so any state whose stored hp is exactly 0 — in particular one
produced by an `at_damage` call landing exactly on 0 — is observed
through the accessor as HP 1, never 0; `hurt_level` accordingly computes
its percentage from 1. -/
theorem C9_hp_accessor (s t : CharState) (d : Int)
    (h : t.hp = 0) (hd : (at_damage s d).1.hp = 0) :
    hpVal t = 1 ∧
    hpVal (at_damage s d).1 = 1 ∧
    hurt_level t = hurtBand (clampPercent (1 / (hpMaxVal t : ℚ))) := by
  have hv : hpVal t = 1 := by
    unfold hpVal orDefault
    rw [if_pos h]
  have hv2 : hpVal (at_damage s d).1 = 1 := by
    unfold hpVal orDefault
    rw [if_pos hd]
  refine ⟨hv, hv2, ?_⟩
  unfold hurt_level
  rw [hv]
  norm_num

/-- C9 witness: the accessor theorem applied to a character at stored
HP 0 of 10 and to a 5/10 character hit for exactly 5. -/
theorem C9_hp_accessor_witness :
    (⟨0, 10, 1, 1, 1, 1, 1, 1, 0⟩ : CharState).hp = 0 ∧
    (at_damage ⟨5, 10, 1, 1, 1, 1, 1, 1, 0⟩ 5).1.hp = 0 ∧
    (hpVal ⟨0, 10, 1, 1, 1, 1, 1, 1, 0⟩ = 1 ∧
     hpVal (at_damage ⟨5, 10, 1, 1, 1, 1, 1, 1, 0⟩ 5).1 = 1 ∧
     hurt_level ⟨0, 10, 1, 1, 1, 1, 1, 1, 0⟩ =
       hurtBand (clampPercent (1 / (hpMaxVal ⟨0, 10, 1, 1, 1, 1, 1, 1, 0⟩ : ℚ)))) :=
  ⟨by decide, by decide,
   C9_hp_accessor ⟨5, 10, 1, 1, 1, 1, 1, 1, 0⟩ ⟨0, 10, 1, 1, 1, 1, 1, 1, 0⟩ 5
     (by decide) (by decide)⟩

/-- C10 (confirmed): the player-character override of `at_looted` is a
pure no-op — both entities come out exactly as they went in — whereas
the `BaseCharacter` version it overrides does move coins on the same
input (victim with 3 coins, roll 10). -/
theorem C10_pc_looted_noop (victim looter : CharState) :
    at_looted_pc victim looter = (victim, looter) ∧
    (at_looted ⟨1, 1, 1, 1, 1, 1, 1, 1, 3⟩ ⟨1, 1, 1, 1, 1, 1, 1, 1, 0⟩ 10).1.coins ≠
      (⟨1, 1, 1, 1, 1, 1, 1, 1, 3⟩ : CharState).coins :=
  ⟨rfl, by decide⟩

end Ainneve
